import Mathlib

/-!
Shallow embedding of the CollaboList authentication and record services
(src/contexts/AuthContext.tsx, src/services/userServices.ts,
src/services/checklistService.ts, src/components/auth/ProtectedRoute.tsx),
with theorems checking the natural-language specification against the code.

Conventions of the embedding:
- Timestamps (the JS Date values produced by new Date()) are abstracted as a
  Nat-valued clock; every operation takes the current time as a parameter.
- The Firestore document store is a function from document id to an optional
  document; setDoc / updateDoc / deleteDoc become functional updates.
- Optional or nullable TS fields become Option; a TS field skipped because it
  is undefined or null is the none case.
- Fallible operations return Except String, mirroring the throw new Error(msg)
  re-raise at each service catch block.
- External nondeterminism (crypto.randomUUID, Math.random, the provider
  outcome, the browser user agent) is passed in as an explicit parameter.
-/

namespace Collabo

/-- Abstract clock value standing for a JS Date timestamp. -/
abbrev Time := Nat

/-- Application role enum from src/types/user.ts (the guest value is produced
by the anonymous mapping in AuthContext.tsx through the index signature). -/
inductive Role where
  | user
  | admin
  | moderator
  | guest
deriving DecidableEq

/-- Theme enum from the preferences object in src/types/user.ts. -/
inductive Theme where
  | light
  | dark
  | system
deriving DecidableEq

/-- Per-channel notification booleans from src/types/user.ts. -/
structure NotificationPrefs where
  email : Bool
  push : Bool
deriving DecidableEq

/-- Preferences object from src/types/user.ts. -/
structure Preferences where
  theme : Theme
  notifications : NotificationPrefs
deriving DecidableEq

/-- Metadata object from src/types/user.ts (lastLoginIp and the open index
signature are not exercised by any code under scrutiny). -/
structure UserMetadata where
  lastLogin : Time
  failedLoginAttempts : Nat
  preferences : Preferences
deriving DecidableEq

/-- Shape of a stored users/(id) document, and of the in-memory mapped User.
Fields follow the User interface of src/types/user.ts; password and
isAnonymous enter through the open index signature when callers spread them
into the document (AuthContext.tsx signUp and the anonymous listener path). -/
structure UserRec where
  id : String
  email : String
  displayName : String
  password : Option String
  photoURL : Option String
  emailVerified : Option Bool
  isActive : Option Bool
  role : Option Role
  isAnonymous : Option Bool
  metadata : Option UserMetadata
  createdAt : Time
  updatedAt : Time
  deletedAt : Option Time
deriving DecidableEq

/-- The UserInput and id argument taken by userServices.createUser
(src/types/user.ts UserInput, intersected with an id). -/
structure UserInput where
  id : String
  email : String
  password : String
  displayName : String
  photoURL : Option String
  emailVerified : Option Bool
  isActive : Option Bool
  role : Option Role
  isAnonymous : Option Bool
  metadata : Option UserMetadata
  createdAt : Option Time
  updatedAt : Option Time
deriving DecidableEq

/-- The users collection: a partial map from document id to document. -/
abbrev UserStore := String → Option UserRec

/-- Store with no documents. -/
def emptyUserStore : UserStore := fun _ => none

/-- Point update of a document store. -/
def storeSet (s : UserStore) (k : String) (v : Option UserRec) : UserStore :=
  fun k2 => if k2 = k then v else s k2

/-- Observable document writes issued against the users collection.
An updateDoc write records the merged document that results. -/
inductive UserWrite where
  | setDoc (id : String) (doc : UserRec)
  | updateDoc (id : String) (doc : UserRec)
  | deleteDoc (id : String)
deriving DecidableEq

/-- JS truthiness fallback (a or b) on an optional string: null, undefined and
the empty string all fall through to the default. -/
def jsStrOr (v : Option String) (dflt : String) : String :=
  match v with
  | some s => if s = "" then dflt else s
  | none => dflt

/-- JS conditional spread ...(v and (field : v)): the field is included only
when v is truthy (present and nonempty). -/
def jsTruthyOpt (v : Option String) : Option String :=
  match v with
  | some s => if s = "" then none else some s
  | none => none

/-- Model of email.split at the at-sign, index 0 (the default displayName
prefix used by signUp in AuthContext.tsx). -/
def emailLocalPart (email : String) : String :=
  (email.splitOn "@").headD ""

namespace userServices

/-- The document written by userServices.createUser
(src/services/userServices.ts lines 74-86): the whole input is spread into
the document and createdAt / updatedAt are stamped at write time, overwriting
any caller-supplied values. -/
def storedOfInput (now : Time) (u : UserInput) : UserRec :=
  { id := u.id
    email := u.email
    displayName := u.displayName
    password := some u.password
    photoURL := u.photoURL
    emailVerified := u.emailVerified
    isActive := u.isActive
    role := u.role
    isAnonymous := u.isAnonymous
    metadata := u.metadata
    createdAt := now
    updatedAt := now
    deletedAt := none }

/-- Model of userServices.createUser (src/services/userServices.ts lines
74-86): setDoc of the spread input with write-time timestamps. Transport
failures are outside the model, so the catch branch is not reachable. -/
def createUser (now : Time) (s : UserStore) (u : UserInput) :
    UserStore × List UserWrite :=
  (storeSet s u.id (some (storedOfInput now u)),
   [UserWrite.setDoc u.id (storedOfInput now u)])

/-- Model of userServices.getUser (src/services/userServices.ts lines
94-108): returns the document, or none when it does not exist; not-found
never throws. -/
def getUser (s : UserStore) (userId : String) : Option UserRec :=
  s userId

end userServices

/-- The UserUpdate partial taken by userServices.updateUser
(src/types/user.ts UserUpdate). A TS field that is absent, undefined or null
is none here; updateUser skips exactly those. -/
structure UserUpdate where
  displayName : Option String
  photoURL : Option String
  email : Option String
  isActive : Option Bool
  role : Option Role
  metadata : Option UserMetadata
  updatedAt : Option Time
  deletedAt : Option Time
deriving DecidableEq

/-- The all-none update (the TS empty object). -/
def emptyUserUpdate : UserUpdate :=
  { displayName := none, photoURL := none, email := none, isActive := none
    role := none, metadata := none, updatedAt := none, deletedAt := none }

/-- Number of keys the cleaned updateData object holds besides the initial
updatedAt key. A defined updates.updatedAt overwrites the existing updatedAt
key, so it does not add a key. -/
def UserUpdate.extraKeyCount (u : UserUpdate) : Nat :=
  (if u.displayName.isSome then 1 else 0) +
  (if u.photoURL.isSome then 1 else 0) +
  (if u.email.isSome then 1 else 0) +
  (if u.isActive.isSome then 1 else 0) +
  (if u.role.isSome then 1 else 0) +
  (if u.metadata.isSome then 1 else 0) +
  (if u.deletedAt.isSome then 1 else 0)

namespace userServices

/-- Firestore updateDoc merge of the cleaned updateData object into a stored
document: each defined field of the update overwrites the stored field, and
the updatedAt key holds the write time unless the caller supplied a defined
updatedAt, which was written over the auto-set key
(src/services/userServices.ts lines 121-131). -/
def applyUserUpdate (now : Time) (doc : UserRec) (u : UserUpdate) : UserRec :=
  { doc with
    displayName := u.displayName.getD doc.displayName
    photoURL := match u.photoURL with
      | some p => some p
      | none => doc.photoURL
    email := u.email.getD doc.email
    isActive := match u.isActive with
      | some b => some b
      | none => doc.isActive
    role := match u.role with
      | some r => some r
      | none => doc.role
    metadata := match u.metadata with
      | some m => some m
      | none => doc.metadata
    deletedAt := match u.deletedAt with
      | some t => some t
      | none => doc.deletedAt
    updatedAt := u.updatedAt.getD now }

/-- Model of userServices.updateUser (src/services/userServices.ts lines
116-143): build updateData from the initial auto-set updatedAt plus every
defined field of updates; if updateData has at most one key, return before
issuing any write; otherwise updateDoc, which fails when the document does
not exist, re-raised by the catch as a generic failure. -/
def updateUser (now : Time) (s : UserStore) (userId : String)
    (updates : UserUpdate) : Except String (UserStore × List UserWrite) :=
  if updates.extraKeyCount = 0 then
    Except.ok (s, [])
  else
    match s userId with
    | none => Except.error "Failed to update user"
    | some doc =>
      let merged := applyUserUpdate now doc updates
      Except.ok (storeSet s userId (some merged), [UserWrite.updateDoc userId merged])

/-- Model of userServices.deactivateUser (src/services/userServices.ts lines
150-162): updateDoc with isActive false, deletedAt now, updatedAt now; fails
when the document does not exist. -/
def deactivateUser (now : Time) (s : UserStore) (userId : String) :
    Except String (UserStore × List UserWrite) :=
  match s userId with
  | none => Except.error "Failed to deactivate user"
  | some doc =>
    let merged := { doc with isActive := some false, deletedAt := some now,
                             updatedAt := now }
    Except.ok (storeSet s userId (some merged), [UserWrite.updateDoc userId merged])

/-- Model of userServices.deleteUser (src/services/userServices.ts lines
169-190): getDoc first; when the document does not exist, log and return
without error; otherwise deactivate the user, then hard-delete the document. -/
def deleteUser (now : Time) (s : UserStore) (userId : String) :
    Except String (UserStore × List UserWrite) :=
  match s userId with
  | none => Except.ok (s, [])
  | some _ =>
    match deactivateUser now s userId with
    | Except.error _ => Except.error "Failed to delete user document"
    | Except.ok (s2, w2) =>
      Except.ok (storeSet s2 userId none, w2 ++ [UserWrite.deleteDoc userId])

end userServices

/-- Concrete stored document used to instantiate theorems with hypotheses. -/
def sampleDoc : UserRec :=
  { id := "u1", email := "a@b.com", displayName := "A", password := none
    photoURL := none, emailVerified := some true, isActive := some true
    role := some Role.user, isAnonymous := none, metadata := none
    createdAt := 0, updatedAt := 0, deletedAt := none }

/-- Store holding exactly the sample document under key u1. -/
def sampleStore0 : UserStore := storeSet emptyUserStore "u1" (some sampleDoc)

/-- Patch carrying a caller-supplied stale updatedAt next to a real field. -/
def stalePatch : UserUpdate :=
  { emptyUserUpdate with displayName := some "A2", updatedAt := some 5 }

/-- Patch updating just the display name. -/
def sampleNamePatch : UserUpdate :=
  { emptyUserUpdate with displayName := some "B" }

/-- Embedded checklist item from src/services/checklistService.ts. -/
structure ChecklistItem where
  id : String
  title : String
  completed : Bool
  createdAt : Time
  updatedAt : Option Time
deriving DecidableEq

/-- Checklist document from src/services/checklistService.ts. -/
structure Checklist where
  id : String
  title : String
  description : Option String
  items : List ChecklistItem
  createdAt : Time
  updatedAt : Time
  createdBy : String
  isPublic : Bool
deriving DecidableEq

/-- The per-user checklists collection. -/
abbrev ChecklistStore := String → Option Checklist

/-- Checklist store with no documents. -/
def emptyChecklistStore : ChecklistStore := fun _ => none

/-- Point update of a checklist store. -/
def chStoreSet (s : ChecklistStore) (k : String) (v : Option Checklist) :
    ChecklistStore :=
  fun k2 => if k2 = k then v else s k2

/-- The item argument of addChecklistItem: Omit of ChecklistItem over id,
createdAt and completed, so only title plus an optional updatedAt. -/
structure ChecklistItemInput where
  title : String
  updatedAt : Option Time
deriving DecidableEq

/-- The updates argument of updateChecklistItem: Partial of ChecklistItem
with id and createdAt omitted. -/
structure ChecklistItemUpdate where
  title : Option String
  completed : Option Bool
  updatedAt : Option Time
deriving DecidableEq

namespace checklistService

/-- Model of checklistService.getChecklist (src/services/checklistService.ts
lines 115-129). -/
def getChecklist (s : ChecklistStore) (checklistId : String) : Option Checklist :=
  s checklistId

/-- Model of checklistService.addChecklistItem
(src/services/checklistService.ts lines 137-165): read the document, build
the new item from the input spread under a generated id, completed false and
a creation timestamp, and write the whole array back appended, bumping the
document updatedAt. The generated crypto.randomUUID value enters as the
newId parameter. A missing document throws, re-raised by the catch as the
generic failure string. -/
def addChecklistItem (now : Time) (newId : String) (s : ChecklistStore)
    (checklistId : String) (item : ChecklistItemInput) :
    Except String ChecklistStore :=
  match s checklistId with
  | none => Except.error "Failed to add checklist item"
  | some checklist =>
    let newItem : ChecklistItem :=
      { id := newId, title := item.title, completed := false,
        createdAt := now, updatedAt := item.updatedAt }
    Except.ok (chStoreSet s checklistId
      (some { checklist with items := checklist.items ++ [newItem],
                             updatedAt := now }))

/-- In-memory transform a matched item undergoes in updateChecklistItem: the
defined update fields overwrite, then updatedAt is stamped. -/
def applyItemUpdate (now : Time) (it : ChecklistItem)
    (u : ChecklistItemUpdate) : ChecklistItem :=
  { it with title := u.title.getD it.title,
            completed := u.completed.getD it.completed,
            updatedAt := some now }

/-- Model of checklistService.updateChecklistItem
(src/services/checklistService.ts lines 174-207): map over the stored array
by id and write the whole array back, bumping the document updatedAt; an id
matching no item leaves the array pointwise unchanged and raises nothing. -/
def updateChecklistItem (now : Time) (s : ChecklistStore)
    (checklistId itemId : String) (updates : ChecklistItemUpdate) :
    Except String ChecklistStore :=
  match s checklistId with
  | none => Except.error "Failed to update checklist item"
  | some checklist =>
    let updatedItems := checklist.items.map fun it =>
      if it.id = itemId then applyItemUpdate now it updates else it
    Except.ok (chStoreSet s checklistId
      (some { checklist with items := updatedItems, updatedAt := now }))

/-- Model of checklistService.removeChecklistItem
(src/services/checklistService.ts lines 215-235): filter the stored array by
id and write the whole array back, bumping the document updatedAt; an id
matching no item leaves the array unchanged and raises nothing. -/
def removeChecklistItem (now : Time) (s : ChecklistStore)
    (checklistId itemId : String) : Except String ChecklistStore :=
  match s checklistId with
  | none => Except.error "Failed to remove checklist item"
  | some checklist =>
    let filteredItems := checklist.items.filter fun it => it.id != itemId
    Except.ok (chStoreSet s checklistId
      (some { checklist with items := filteredItems, updatedAt := now }))

end checklistService

/-- Concrete existing empty checklist used to instantiate theorems. -/
def sampleChecklist : Checklist :=
  { id := "c1", title := "Groceries", description := none, items := []
    createdAt := 0, updatedAt := 0, createdBy := "u1", isPublic := false }

/-- Concrete checklist item used to instantiate theorems. -/
def sampleItem : ChecklistItem :=
  { id := "i1", title := "Buy milk", completed := false, createdAt := 0
    updatedAt := none }

/-- Store holding the sample checklist under key c1. -/
def sampleChecklistStore : ChecklistStore :=
  chStoreSet emptyChecklistStore "c1" (some sampleChecklist)

/-- Store holding the sample checklist with one item under key c1. -/
def sampleChecklistStore1 : ChecklistStore :=
  chStoreSet emptyChecklistStore "c1"
    (some { sampleChecklist with items := [sampleItem] })

/-- Shared error state shape of the auth context
(src/contexts/AuthContext.tsx, the error useState). -/
structure SharedError where
  code : String
  message : String
deriving DecidableEq

/-- Provider error shape (AuthErrorWithCode in src/contexts/AuthContext.tsx):
a message plus an optional code. -/
structure AuthError where
  code : Option String
  message : String
deriving DecidableEq

/-- The provider session object consumed from the identity provider
(FirebaseUser fields read by AuthContext.tsx). -/
structure ProviderUser where
  uid : String
  email : Option String
  displayName : Option String
  photoURL : Option String
  emailVerified : Bool
  isAnonymous : Bool
deriving DecidableEq

/-- Whether the first character list is a pointwise prefix of the second. -/
def listStartsWith : List Char → List Char → Bool
  | [], _ => true
  | _ :: _, [] => false
  | p :: ps, c :: cs => p == c && listStartsWith ps cs

/-- Whether the first character list occurs contiguously in the second. -/
def listContainsSub (pat : List Char) : List Char → Bool
  | [] => pat.isEmpty
  | c :: cs => listStartsWith pat (c :: cs) || listContainsSub pat cs

/-- ASCII lowercase of one character (the case relevant to user agents). -/
def asciiToLower (c : Char) : Char :=
  if 65 ≤ c.toNat ∧ c.toNat ≤ 90 then Char.ofNat (c.toNat + 32) else c

/-- Model of the JS toLowerCase call on a user agent string. -/
def toLowerModel (s : String) : String :=
  String.mk (s.data.map asciiToLower)

/-- Substring test standing for the TS regex test over a user agent. -/
def containsSub (s pat : String) : Bool :=
  listContainsSub pat.data s.data

/-- Model of isIosOrSafari (src/lib/firebase.ts): the lowercased user agent
mentions an iOS device, or mentions safari without mentioning chrome. -/
def isIosOrSafari (userAgent : String) : Bool :=
  let ua := toLowerModel userAgent
  let isIos := containsSub ua "iphone" || containsSub ua "ipad" ||
    containsSub ua "ipod"
  let isSafari := containsSub ua "safari" && !(containsSub ua "chrome")
  isIos || isSafari

namespace AuthCtx

/-- Default metadata object built by the AuthContext flows: lastLogin now,
zero failed attempts, system theme, given notification channel values. -/
def defaultMetadata (now : Time) (emailNotif pushNotif : Bool) : UserMetadata :=
  { lastLogin := now
    failedLoginAttempts := 0
    preferences :=
      { theme := Theme.system
        notifications := { email := emailNotif, push := pushNotif } } }

/-- The userData object signUp assembles for userServices.createUser
(src/contexts/AuthContext.tsx lines 332-354): provider email with empty
fallback, provider displayName with email-local-part fallback, the raw
password for type compatibility, conditional photoURL spread, role user,
default preferences, emailVerified mirrored from the provider, and
caller-side timestamps (which createUser then overwrites). -/
def signUpUserData (now : Time) (email password : String)
    (pu : ProviderUser) : UserInput :=
  { id := pu.uid
    email := pu.email.getD ""
    displayName := jsStrOr pu.displayName (emailLocalPart email)
    password := password
    photoURL := jsTruthyOpt pu.photoURL
    emailVerified := some pu.emailVerified
    isActive := some true
    role := some Role.user
    isAnonymous := none
    metadata := some (defaultMetadata now true true)
    createdAt := some now
    updatedAt := some now }

/-- The errorMessage computed in the signUp catch handler
(src/contexts/AuthContext.tsx lines 363-365): a normalized string for the
email-already-in-use code and a fixed generic string for every other error. -/
def signUpErrorMessage (e : AuthError) : String :=
  if e.code = some "auth/email-already-in-use" then
    "An account with this email already exists."
  else
    "Failed to create account. Please try again."

/-- Observable outcome of a signUp call: the resulting store and writes, the
shared error state it set, and the message of the Error it re-threw (the
re-thrown Error carries no code). -/
structure SignUpOutcome where
  store : UserStore
  writes : List UserWrite
  ok : Bool
  sharedError : Option SharedError
  thrownMessage : Option String

/-- Model of signUp (src/contexts/AuthContext.tsx lines 322-376). The
provider outcome of createUserWithEmailAndPassword enters as a parameter: on
success the assembled userData is written through userServices.createUser;
on failure the catch sets the shared error to the provider code (defaulted
to auth/error when absent) with the normalized message, and throws a fresh
Error carrying that message only. -/
def signUp (now : Time) (s : UserStore) (email password : String)
    (provider : Except AuthError ProviderUser) : SignUpOutcome :=
  match provider with
  | Except.ok pu =>
    let userData := signUpUserData now email password pu
    let created := userServices.createUser now s userData
    { store := created.1, writes := created.2, ok := true,
      sharedError := none, thrownMessage := none }
  | Except.error e =>
    let msg := signUpErrorMessage e
    { store := s, writes := [], ok := false,
      sharedError := some { code := e.code.getD "auth/error", message := msg },
      thrownMessage := some msg }

/-- The capability-gate failure message shared by the Apple paths. -/
def appleUnsupportedMessage : String :=
  "Apple Sign In is only available on iOS and Safari browsers"

/-- Observable start of an Apple-path call: either a rejection raised before
any popup request (recording the shared error it set, whether the thrown
error carries a code, and the thrown message), or the popup request going
out. -/
inductive AppleCallStart where
  | rejectedBeforePopup (sharedError : Option SharedError)
      (thrownHasCode : Bool) (thrownMessage : String)
  | popupIssued
deriving DecidableEq

/-- Model of the gate of signInWithApple (src/contexts/AuthContext.tsx lines
626-639): off iOS/Safari it sets the shared error with the
auth/unsupported-browser code and throws a plain Error before any popup;
otherwise the popup request is issued. -/
def signInWithAppleStart (userAgent : String) : AppleCallStart :=
  if !(isIosOrSafari userAgent) then
    AppleCallStart.rejectedBeforePopup
      (some { code := "auth/unsupported-browser",
              message := appleUnsupportedMessage })
      false appleUnsupportedMessage
  else
    AppleCallStart.popupIssued

/-- Model of the gate of linkWithApple (src/contexts/AuthContext.tsx lines
958-972): off iOS/Safari it throws a plain Error before any popup, without
setting the shared error state and without any code; with no current user it
also throws before the popup; otherwise the popup request is issued. -/
def linkWithAppleStart (userAgent : String) (hasCurrentUser : Bool) :
    AppleCallStart :=
  if !(isIosOrSafari userAgent) then
    AppleCallStart.rejectedBeforePopup none false appleUnsupportedMessage
  else if !hasCurrentUser then
    AppleCallStart.rejectedBeforePopup none false
      "No user is currently signed in"
  else
    AppleCallStart.popupIssued

/-- The mapped application User the auth listener builds from a provider
session (src/contexts/AuthContext.tsx lines 229-252). -/
def mapFirebaseUser (now : Time) (fu : ProviderUser) : UserRec :=
  let anon := fu.isAnonymous
  { id := fu.uid
    email := jsStrOr fu.email (if anon then "" else "no-email@example.com")
    displayName := jsStrOr fu.displayName
      (if anon then "Guest User"
       else jsStrOr (fu.email.map emailLocalPart) "User")
    password := none
    photoURL := jsTruthyOpt fu.photoURL
    emailVerified := some fu.emailVerified
    isActive := some true
    role := some (if anon then Role.guest else Role.user)
    isAnonymous := some anon
    metadata := some (defaultMetadata now (!anon) (!anon))
    createdAt := now
    updatedAt := now
    deletedAt := none }

/-- The createUser input assembled for a first-seen anonymous session: the
mapped user spread with the placeholder password and fresh timestamps
(src/contexts/AuthContext.tsx lines 263-268). -/
def anonymousCreateInput (now : Time) (mapped : UserRec)
    (tempPassword : String) : UserInput :=
  { id := mapped.id
    email := mapped.email
    password := tempPassword
    displayName := mapped.displayName
    photoURL := mapped.photoURL
    emailVerified := mapped.emailVerified
    isActive := mapped.isActive
    role := mapped.role
    isAnonymous := mapped.isAnonymous
    metadata := mapped.metadata
    createdAt := some now
    updatedAt := some now }

/-- In-memory auth session state owned by the provider component
(src/contexts/AuthContext.tsx useState hooks). -/
structure AuthState where
  user : Option UserRec
  loading : Bool
  isInitialized : Bool
  isAnonymous : Bool
  error : Option SharedError

/-- Model of the onAuthStateChanged callback
(src/contexts/AuthContext.tsx lines 206-292): map the provider session to
the application User; for an anonymous session, ensure a backing store
record exists, creating one with a temp password (the Math.random suffix
enters as a parameter) exactly when getUser finds none; then publish the
mapped user and settle loading and isInitialized. A null session clears the
user. -/
def onAuthStateChangedCallback (now : Time) (randSuffix : String)
    (st : AuthState) (s : UserStore) (fu : Option ProviderUser) :
    AuthState × UserStore :=
  match fu with
  | some u =>
    let anon := u.isAnonymous
    let mapped := mapFirebaseUser now u
    let s2 :=
      if anon then
        match userServices.getUser s u.uid with
        | none =>
          let tempPassword := "temp_" ++ randSuffix
          (userServices.createUser now s
            (anonymousCreateInput now mapped tempPassword)).1
        | some _ => s
      else s
    ({ st with user := some mapped, isAnonymous := anon,
               loading := false, isInitialized := true }, s2)
  | none =>
    ({ st with user := none, isAnonymous := false,
               loading := false, isInitialized := true }, s)

/-- The loading value the context exposes to consumers
(src/contexts/AuthContext.tsx line 989): raw loading or not yet initialized. -/
def contextLoading (rawLoading isInitialized : Bool) : Bool :=
  rawLoading || !isInitialized

end AuthCtx

/-- What a render of the route guard produces. -/
inductive RouteRender where
  | loadingPlaceholder
  | redirect (dest : String) (fromLocation : String)
  | childrenContent
deriving DecidableEq

/-- Model of ProtectedRoute (src/components/auth/ProtectedRoute.tsx lines
20-74): placeholder while loading or uninitialized; with no user, redirect
to /login preserving the requested location (the inner uninitialized check
is unreachable there but kept from the source); with a user lacking a
required email verification, redirect to /verify-email; otherwise render the
children. -/
def ProtectedRoute (loading isInitialized : Bool) (user : Option UserRec)
    (requireEmailVerification : Bool) (location : String) : RouteRender :=
  if loading || !isInitialized then
    RouteRender.loadingPlaceholder
  else
    match user with
    | none =>
      if !isInitialized then
        RouteRender.loadingPlaceholder
      else
        RouteRender.redirect "/login" location
    | some u =>
      if requireEmailVerification && !(u.emailVerified.getD false) then
        RouteRender.redirect "/verify-email" location
      else
        RouteRender.childrenContent

/-- Shared error state set by an Apple-path rejection, when any. -/
def AuthCtx.AppleCallStart.sharedErrorCode : AuthCtx.AppleCallStart → Option String
  | AuthCtx.AppleCallStart.rejectedBeforePopup (some se) _ _ => some se.code
  | _ => none

/-- Whether the error thrown by an Apple-path rejection carries a code. -/
def AuthCtx.AppleCallStart.thrownCarriesCode : AuthCtx.AppleCallStart → Bool
  | AuthCtx.AppleCallStart.rejectedBeforePopup _ tc _ => tc
  | _ => false

/-- Lowercased desktop Chrome user agent: mentions safari but also chrome,
and no iOS device, so the capability gate is off. -/
def chromeUserAgent : String :=
  "mozilla/5.0 (x11; linux x86_64) applewebkit/537.36 (khtml, like gecko) chrome/120.0.0.0 safari/537.36"

/-- Initial in-memory auth state of the provider component before the first
listener callback (the useState initial values in AuthContext.tsx). -/
def initialAuthState : AuthCtx.AuthState :=
  { user := none, loading := true, isInitialized := false,
    isAnonymous := false, error := none }

/-- Concrete anonymous provider session used to instantiate theorems. -/
def anonProviderUser : ProviderUser :=
  { uid := "anon1", email := none, displayName := none, photoURL := none,
    emailVerified := false, isAnonymous := true }

/-- C5: for every input record, createUser followed by getUser with the same
id returns a record whose email and displayName equal the input, and whose
createdAt and updatedAt are both set to the write time (overwriting any
caller-supplied values) and are equal to each other. -/
theorem createUser_getUser_roundtrip (now : Time) (s : UserStore) (u : UserInput) :
    ∃ d : UserRec,
      userServices.getUser (userServices.createUser now s u).1 u.id = some d ∧
      d.email = u.email ∧
      d.displayName = u.displayName ∧
      d.createdAt = now ∧
      d.updatedAt = now ∧
      d.createdAt = d.updatedAt := by
  refine ⟨userServices.storedOfInput now u, ?_, rfl, rfl, rfl, rfl, rfl⟩
  simp [userServices.getUser, userServices.createUser, storeSet]

/-- C3 (amended): for every updateUser call on an existing document, when the
cleaned patch holds no key besides updatedAt no write is issued and the store
is unchanged; otherwise exactly one updateDoc write is issued whose merged
document takes each defined field of the patch, keeps every other stored
field unchanged, and holds the write time in updatedAt unless the patch
itself carried a defined updatedAt, whose value then overwrites the auto-set
timestamp; all other documents are untouched. -/
theorem updateUser_merge_spec (now : Time) (s : UserStore) (userId : String)
    (updates : UserUpdate) (doc : UserRec) (hdoc : s userId = some doc) :
    (updates.extraKeyCount = 0 →
      userServices.updateUser now s userId updates = Except.ok (s, [])) ∧
    (updates.extraKeyCount ≠ 0 →
      ∃ s2 merged,
        userServices.updateUser now s userId updates =
          Except.ok (s2, [UserWrite.updateDoc userId merged]) ∧
        s2 userId = some merged ∧
        (∀ k, k ≠ userId → s2 k = s k) ∧
        merged.displayName = updates.displayName.getD doc.displayName ∧
        merged.email = updates.email.getD doc.email ∧
        (updates.photoURL = none → merged.photoURL = doc.photoURL) ∧
        (∀ v, updates.photoURL = some v → merged.photoURL = some v) ∧
        (updates.isActive = none → merged.isActive = doc.isActive) ∧
        (∀ v, updates.isActive = some v → merged.isActive = some v) ∧
        (updates.role = none → merged.role = doc.role) ∧
        (∀ v, updates.role = some v → merged.role = some v) ∧
        (updates.metadata = none → merged.metadata = doc.metadata) ∧
        (∀ v, updates.metadata = some v → merged.metadata = some v) ∧
        (updates.deletedAt = none → merged.deletedAt = doc.deletedAt) ∧
        (∀ v, updates.deletedAt = some v → merged.deletedAt = some v) ∧
        merged.updatedAt = updates.updatedAt.getD now ∧
        merged.id = doc.id ∧
        merged.password = doc.password ∧
        merged.emailVerified = doc.emailVerified ∧
        merged.isAnonymous = doc.isAnonymous ∧
        merged.createdAt = doc.createdAt) := by
  constructor
  · intro h0
    simp [userServices.updateUser, h0]
  · intro hne
    refine ⟨storeSet s userId (some (userServices.applyUserUpdate now doc updates)),
            userServices.applyUserUpdate now doc updates, ?_, ?_, ?_,
            rfl, rfl, ?_, ?_, ?_, ?_, ?_, ?_, ?_, ?_, ?_, ?_,
            rfl, rfl, rfl, rfl, rfl, rfl⟩
    · simp [userServices.updateUser, hne, hdoc]
    · simp [storeSet]
    · intro k hk
      simp [storeSet, hk]
    · intro h
      simp [userServices.applyUserUpdate, h]
    · intro v h
      simp [userServices.applyUserUpdate, h]
    · intro h
      simp [userServices.applyUserUpdate, h]
    · intro v h
      simp [userServices.applyUserUpdate, h]
    · intro h
      simp [userServices.applyUserUpdate, h]
    · intro v h
      simp [userServices.applyUserUpdate, h]
    · intro h
      simp [userServices.applyUserUpdate, h]
    · intro v h
      simp [userServices.applyUserUpdate, h]
    · intro h
      simp [userServices.applyUserUpdate, h]
    · intro v h
      simp [userServices.applyUserUpdate, h]

/-- C3 witness: the amended updateUser theorem instantiated on the sample
store with a pure display-name patch. -/
theorem updateUser_merge_spec_witness :
    sampleStore0 "u1" = some sampleDoc ∧
    ∃ s2 merged,
      userServices.updateUser 3 sampleStore0 "u1" sampleNamePatch =
        Except.ok (s2, [UserWrite.updateDoc "u1" merged]) ∧
      s2 "u1" = some merged ∧
      merged.displayName = "B" ∧
      merged.updatedAt = 3 := by
  refine ⟨rfl, ?_⟩
  obtain ⟨-, h⟩ :=
    updateUser_merge_spec 3 sampleStore0 "u1" sampleNamePatch sampleDoc rfl
  obtain ⟨s2, merged, he, hm, -, hdn, -, -, -, -, -, -, -, -, -, -, -, hup, -⟩ :=
    h (by decide)
  exact ⟨s2, merged, he, hm, by rw [hdn]; rfl, by rw [hup]; rfl⟩

/-- C3 counterexample: a patch carrying a defined updatedAt field next to a
display-name change. The claim as stated says updatedAt is refreshed to the
write time (7), but the stored value after the call is the caller-supplied 5. -/
theorem updateUser_refresh_counterexample :
    (match userServices.updateUser 7 sampleStore0 "u1" stalePatch with
     | Except.ok (s2, _) => (s2 "u1").map UserRec.updatedAt
     | Except.error _ => none) = some 5 ∧
    (match userServices.updateUser 7 sampleStore0 "u1" stalePatch with
     | Except.ok (s2, _) => (s2 "u1").map UserRec.updatedAt
     | Except.error _ => none) ≠ some 7 := by
  constructor
  · rfl
  · decide

/-- C8: deleteUser on an absent id logs and returns successfully with no
writes (hence idempotent); on a present id it first issues the deactivation
update (isActive false, deletedAt set) and then permanently removes the
document, leaving every other document untouched, and a repeat call is a
successful no-op. -/
theorem deleteUser_spec (now : Time) (s : UserStore) (userId : String) :
    (s userId = none →
      userServices.deleteUser now s userId = Except.ok (s, [])) ∧
    (∀ d, s userId = some d →
      ∃ s2 d2,
        userServices.deleteUser now s userId =
          Except.ok (s2, [UserWrite.updateDoc userId d2,
                          UserWrite.deleteDoc userId]) ∧
        d2.isActive = some false ∧
        d2.deletedAt = some now ∧
        s2 userId = none ∧
        (∀ k, k ≠ userId → s2 k = s k) ∧
        (∀ now2, userServices.deleteUser now2 s2 userId = Except.ok (s2, []))) := by
  constructor
  · intro h
    simp [userServices.deleteUser, h]
  · intro d hd
    refine ⟨storeSet (storeSet s userId
              (some { d with isActive := some false, deletedAt := some now,
                             updatedAt := now })) userId none,
            { d with isActive := some false, deletedAt := some now,
                     updatedAt := now }, ?_, rfl, rfl, ?_, ?_, ?_⟩
    · simp [userServices.deleteUser, userServices.deactivateUser, hd]
    · simp [storeSet]
    · intro k hk
      simp [storeSet, hk]
    · intro now2
      have h2 : (storeSet (storeSet s userId
          (some { d with isActive := some false, deletedAt := some now,
                         updatedAt := now })) userId none) userId = none := by
        simp [storeSet]
      simp [userServices.deleteUser, h2]

/-- C8 witness: the deleteUser theorem instantiated on the sample store. -/
theorem deleteUser_spec_witness :
    sampleStore0 "u1" = some sampleDoc ∧
    ∃ s2 d2,
      userServices.deleteUser 4 sampleStore0 "u1" =
        Except.ok (s2, [UserWrite.updateDoc "u1" d2, UserWrite.deleteDoc "u1"]) ∧
      d2.isActive = some false ∧
      d2.deletedAt = some 4 ∧
      s2 "u1" = none := by
  refine ⟨rfl, ?_⟩
  obtain ⟨-, h⟩ := deleteUser_spec 4 sampleStore0 "u1"
  obtain ⟨s2, d2, he, h1, h2, h3, -, -⟩ := h sampleDoc rfl
  exact ⟨s2, d2, he, h1, h2, h3⟩

/-- C6: addChecklistItem on an existing checklist writes back the stored
items array with exactly one new item appended at the end, whose completed
flag is false and whose id is the freshly generated token (distinct from
every previously stored id when the generator is fresh); every previously
stored item is unchanged and in order, only the document updatedAt is
bumped, other documents are untouched, and on an empty checklist the
resulting array has length 1. -/
theorem addChecklistItem_appends (now : Time) (newId : String)
    (s : ChecklistStore) (cid : String) (input : ChecklistItemInput)
    (c : Checklist) (hc : s cid = some c)
    (hfresh : ∀ it ∈ c.items, it.id ≠ newId) :
    ∃ s2, checklistService.addChecklistItem now newId s cid input =
        Except.ok s2 ∧
      ∃ c2 newItem,
        checklistService.getChecklist s2 cid = some c2 ∧
        c2.items = c.items ++ [newItem] ∧
        newItem.completed = false ∧
        newItem.id = newId ∧
        newItem.title = input.title ∧
        newItem.createdAt = now ∧
        (∀ it ∈ c.items, it.id ≠ newItem.id) ∧
        c2.updatedAt = now ∧
        c2.id = c.id ∧ c2.title = c.title ∧ c2.description = c.description ∧
        c2.createdAt = c.createdAt ∧ c2.createdBy = c.createdBy ∧
        c2.isPublic = c.isPublic ∧
        (∀ k, k ≠ cid → s2 k = s k) ∧
        (c.items = [] → c2.items.length = 1) := by
  refine ⟨chStoreSet s cid
      (some { c with
        items := c.items ++
          [{ id := newId, title := input.title, completed := false,
             createdAt := now, updatedAt := input.updatedAt }],
        updatedAt := now }), ?_,
    { c with
      items := c.items ++
        [{ id := newId, title := input.title, completed := false,
           createdAt := now, updatedAt := input.updatedAt }],
      updatedAt := now },
    { id := newId, title := input.title, completed := false,
      createdAt := now, updatedAt := input.updatedAt },
    ?_, rfl, rfl, rfl, rfl, rfl, hfresh, rfl, rfl, rfl, rfl, rfl, rfl, rfl,
    ?_, ?_⟩
  · simp [checklistService.addChecklistItem, hc]
  · simp [checklistService.getChecklist, chStoreSet]
  · intro k hk
    simp [chStoreSet, hk]
  · intro h0
    simp [h0]

/-- C6 witness: the append theorem instantiated on the sample store holding
an existing empty checklist, matching the spec scenario. -/
theorem addChecklistItem_appends_witness :
    sampleChecklistStore "c1" = some sampleChecklist ∧
    (∀ it ∈ sampleChecklist.items, it.id ≠ "id-new") ∧
    ∃ s2, checklistService.addChecklistItem 9 "id-new" sampleChecklistStore
        "c1" { title := "Buy milk", updatedAt := none } = Except.ok s2 ∧
      ∃ c2 newItem,
        checklistService.getChecklist s2 "c1" = some c2 ∧
        c2.items = [newItem] ∧
        newItem.completed = false ∧
        newItem.id = "id-new" ∧
        c2.items.length = 1 := by
  refine ⟨rfl, by decide, ?_⟩
  obtain ⟨s2, he, c2, newItem, hget, hitems, hcomp, hid, -, -, -, -, -, -, -,
          -, -, -, -, hlen⟩ :=
    addChecklistItem_appends 9 "id-new" sampleChecklistStore "c1"
      { title := "Buy milk", updatedAt := none } sampleChecklist rfl (by decide)
  refine ⟨s2, he, c2, newItem, hget, ?_, hcomp, hid, hlen rfl⟩
  simpa [sampleChecklist] using hitems

/-- C10: updateChecklistItem and removeChecklistItem on an existing checklist
whose stored items all miss the given itemId both resolve successfully with
no item-not-found error, writing the items array back unchanged with only the
document updatedAt bumped, and leaving every other document untouched. -/
theorem missing_item_mutations_noop (now : Time) (s : ChecklistStore)
    (cid itemId : String) (upd : ChecklistItemUpdate) (c : Checklist)
    (hc : s cid = some c) (hmiss : ∀ it ∈ c.items, it.id ≠ itemId) :
    checklistService.updateChecklistItem now s cid itemId upd =
      Except.ok (chStoreSet s cid (some { c with updatedAt := now })) ∧
    checklistService.removeChecklistItem now s cid itemId =
      Except.ok (chStoreSet s cid (some { c with updatedAt := now })) ∧
    checklistService.getChecklist
        (chStoreSet s cid (some { c with updatedAt := now })) cid =
      some { c with updatedAt := now } ∧
    ({ c with updatedAt := now } : Checklist).items = c.items ∧
    (∀ k, k ≠ cid →
      (chStoreSet s cid (some { c with updatedAt := now })) k = s k) := by
  have hmap : (c.items.map fun it =>
      if it.id = itemId then checklistService.applyItemUpdate now it upd
      else it) = c.items := by
    have hcong : ∀ it ∈ c.items,
        (if it.id = itemId then checklistService.applyItemUpdate now it upd
         else it) = it := by
      intro it hit
      simp [hmiss it hit]
    calc (c.items.map fun it =>
        if it.id = itemId then checklistService.applyItemUpdate now it upd
        else it) = c.items.map id := List.map_congr_left hcong
      _ = c.items := List.map_id c.items
  have hfilter : (c.items.filter fun it => it.id != itemId) = c.items := by
    rw [List.filter_eq_self]
    intro it hit
    simpa using hmiss it hit
  refine ⟨?_, ?_, ?_, rfl, ?_⟩
  · simp only [checklistService.updateChecklistItem, hc, hmap]
  · simp only [checklistService.removeChecklistItem, hc, hfilter]
  · simp [checklistService.getChecklist, chStoreSet]
  · intro k hk
    simp [chStoreSet, hk]

/-- C10 witness: the missing-item theorem instantiated on the sample store
holding a checklist with one item whose id differs from the target. -/
theorem missing_item_mutations_noop_witness :
    sampleChecklistStore1 "c1" =
      some { sampleChecklist with items := [sampleItem] } ∧
    (∀ it ∈ ({ sampleChecklist with items := [sampleItem] } : Checklist).items,
      it.id ≠ "missing-id") ∧
    checklistService.updateChecklistItem 6 sampleChecklistStore1 "c1"
        "missing-id" { title := none, completed := some true, updatedAt := none } =
      Except.ok (chStoreSet sampleChecklistStore1 "c1"
        (some { { sampleChecklist with items := [sampleItem] } with
                  updatedAt := 6 })) ∧
    checklistService.removeChecklistItem 6 sampleChecklistStore1 "c1"
        "missing-id" =
      Except.ok (chStoreSet sampleChecklistStore1 "c1"
        (some { { sampleChecklist with items := [sampleItem] } with
                  updatedAt := 6 })) := by
  obtain ⟨h1, h2, -, -, -⟩ :=
    missing_item_mutations_noop 6 sampleChecklistStore1 "c1" "missing-id"
      { title := none, completed := some true, updatedAt := none }
      { sampleChecklist with items := [sampleItem] } rfl (by decide)
  exact ⟨rfl, by decide, h1, h2⟩

/-- C1 (amended): a signUp call failing with a provider error rejects with
the shared error carrying the provider code (defaulting to auth/error when
absent); the message is the normalized account-exists string exactly for the
email-already-in-use code and the fixed generic failure string for every
other code; the provider message is never passed through (the outcome does
not depend on it), the re-thrown Error carries the same message, and no
store write happens. -/
theorem signUp_error_normalization (now : Time) (s : UserStore)
    (email password : String) (e : AuthError) :
    AuthCtx.signUp now s email password (Except.error e) =
      { store := s, writes := [], ok := false,
        sharedError := some
          { code := e.code.getD "auth/error",
            message :=
              if e.code = some "auth/email-already-in-use" then
                "An account with this email already exists."
              else
                "Failed to create account. Please try again." },
        thrownMessage := some
          (if e.code = some "auth/email-already-in-use" then
            "An account with this email already exists."
          else
            "Failed to create account. Please try again.") } ∧
    (∀ m2 : String,
      AuthCtx.signUp now s email password
          (Except.error { code := e.code, message := m2 }) =
        AuthCtx.signUp now s email password (Except.error e)) := by
  exact ⟨rfl, fun m2 => rfl⟩

/-- C1 counterexample: a provider error with a code other than
email-already-in-use. The claim as stated says the provider message is
passed through, but both the shared error and the thrown Error carry the
fixed generic string instead. -/
theorem signUp_passthrough_counterexample :
    (AuthCtx.signUp 0 emptyUserStore "a@b.com" "pw"
      (Except.error { code := some "auth/weak-password",
                      message := "The password is too weak." })).sharedError.map
        SharedError.message ≠ some "The password is too weak." ∧
    (AuthCtx.signUp 0 emptyUserStore "a@b.com" "pw"
      (Except.error { code := some "auth/weak-password",
                      message := "The password is too weak." })).thrownMessage ≠
      some "The password is too weak." ∧
    (AuthCtx.signUp 0 emptyUserStore "a@b.com" "pw"
      (Except.error { code := some "auth/weak-password",
                      message := "The password is too weak." })).sharedError.map
        SharedError.message =
      some "Failed to create account. Please try again." := by
  refine ⟨by decide, by decide, rfl⟩

/-- C9: a successful signUp stores a users document for the new uid whose
password field equals the caller-supplied plaintext password, because
createUser spreads the entire input into the document. -/
theorem signUp_stores_plaintext_password (now : Time) (s : UserStore)
    (email password : String) (pu : ProviderUser) :
    ∃ d : UserRec,
      userServices.getUser
        (AuthCtx.signUp now s email password (Except.ok pu)).store pu.uid =
        some d ∧
      d.password = some password := by
  refine ⟨userServices.storedOfInput now
    (AuthCtx.signUpUserData now email password pu), ?_, rfl⟩
  simp [AuthCtx.signUp, userServices.createUser, userServices.getUser,
        storeSet, AuthCtx.signUpUserData]

/-- C2: after the listener processes an anonymous session, a users record
exists for that session id; it is created with role guest and the temp
placeholder password exactly when none was present, a present record is left
untouched, and under the store-shape invariant that any record already
stored for an anonymous id has role guest (which only this creation path
establishes), the surviving record has role guest. -/
theorem anonymous_listener_provisions_guest_record (now : Time)
    (randSuffix : String) (st : AuthCtx.AuthState) (s : UserStore)
    (u : ProviderUser) (hanon : u.isAnonymous = true) :
    ((AuthCtx.onAuthStateChangedCallback now randSuffix st s (some u)).2
        u.uid).isSome = true ∧
    (s u.uid = none →
      ∃ d, (AuthCtx.onAuthStateChangedCallback now randSuffix st s
              (some u)).2 u.uid = some d ∧
        d.role = some Role.guest ∧
        d.password = some ("temp_" ++ randSuffix) ∧
        (∀ k, k ≠ u.uid →
          (AuthCtx.onAuthStateChangedCallback now randSuffix st s
            (some u)).2 k = s k)) ∧
    (∀ d0, s u.uid = some d0 →
      (AuthCtx.onAuthStateChangedCallback now randSuffix st s (some u)).2 = s) ∧
    ((∀ d0, s u.uid = some d0 → d0.role = some Role.guest) →
      ∃ d, (AuthCtx.onAuthStateChangedCallback now randSuffix st s
              (some u)).2 u.uid = some d ∧
        d.role = some Role.guest) := by
  rcases hu : s u.uid with - | d0
  · have hs2 : (AuthCtx.onAuthStateChangedCallback now randSuffix st s
        (some u)).2 =
        storeSet s u.uid (some (userServices.storedOfInput now
          (AuthCtx.anonymousCreateInput now (AuthCtx.mapFirebaseUser now u)
            ("temp_" ++ randSuffix)))) := by
      simp [AuthCtx.onAuthStateChangedCallback, hanon, userServices.getUser,
            hu, userServices.createUser, AuthCtx.anonymousCreateInput,
            AuthCtx.mapFirebaseUser]
    refine ⟨?_, ?_, ?_, ?_⟩
    · rw [hs2]
      simp [storeSet]
    · intro _
      refine ⟨userServices.storedOfInput now
        (AuthCtx.anonymousCreateInput now (AuthCtx.mapFirebaseUser now u)
          ("temp_" ++ randSuffix)), ?_, ?_, rfl, ?_⟩
      · rw [hs2]
        simp [storeSet]
      · simp [userServices.storedOfInput, AuthCtx.anonymousCreateInput,
              AuthCtx.mapFirebaseUser, hanon]
      · intro k hk
        rw [hs2]
        simp [storeSet, hk]
    · intro d0 hd0
      exact absurd hd0 (by simp)
    · intro _
      refine ⟨userServices.storedOfInput now
        (AuthCtx.anonymousCreateInput now (AuthCtx.mapFirebaseUser now u)
          ("temp_" ++ randSuffix)), ?_, ?_⟩
      · rw [hs2]
        simp [storeSet]
      · simp [userServices.storedOfInput, AuthCtx.anonymousCreateInput,
              AuthCtx.mapFirebaseUser, hanon]
  · have hs2 : (AuthCtx.onAuthStateChangedCallback now randSuffix st s
        (some u)).2 = s := by
      simp [AuthCtx.onAuthStateChangedCallback, hanon, userServices.getUser, hu]
    refine ⟨?_, ?_, fun _ _ => hs2, ?_⟩
    · rw [hs2, hu]
      rfl
    · intro h0
      exact absurd h0 (by simp)
    · intro hinv
      exact ⟨d0, by rw [hs2, hu], hinv d0 rfl⟩

/-- C2 witness: the anonymous provisioning theorem instantiated on an empty
store with a concrete anonymous session. -/
theorem anonymous_listener_provisions_guest_record_witness :
    anonProviderUser.isAnonymous = true ∧
    emptyUserStore "anon1" = none ∧
    ∃ d, (AuthCtx.onAuthStateChangedCallback 2 "r4nd" initialAuthState
            emptyUserStore (some anonProviderUser)).2 "anon1" = some d ∧
      d.role = some Role.guest ∧
      d.password = some ("temp_" ++ "r4nd") := by
  refine ⟨rfl, rfl, ?_⟩
  obtain ⟨-, h2, -, -⟩ :=
    anonymous_listener_provisions_guest_record 2 "r4nd" initialAuthState
      emptyUserStore anonProviderUser rfl
  obtain ⟨d, hd, hrole, hpw, -⟩ := h2 rfl
  exact ⟨d, hd, hrole, hpw⟩

/-- C4 (amended): on a user agent failing the iOS/Safari capability check,
signInWithApple rejects before any popup request with the shared error set
to the distinct auth/unsupported-browser code (the thrown Error itself
carries no code), and linkWithApple also rejects before any popup request
but with a plain Error carrying no code and without setting the shared
error state at all. -/
theorem apple_gate_spec (userAgent : String) (hasCurrentUser : Bool)
    (hgate : isIosOrSafari userAgent = false) :
    AuthCtx.signInWithAppleStart userAgent =
      AuthCtx.AppleCallStart.rejectedBeforePopup
        (some { code := "auth/unsupported-browser",
                message := AuthCtx.appleUnsupportedMessage })
        false AuthCtx.appleUnsupportedMessage ∧
    AuthCtx.linkWithAppleStart userAgent hasCurrentUser =
      AuthCtx.AppleCallStart.rejectedBeforePopup none false
        AuthCtx.appleUnsupportedMessage := by
  constructor
  · simp [AuthCtx.signInWithAppleStart, hgate]
  · simp [AuthCtx.linkWithAppleStart, hgate]

/-- C4 witness: the gate theorem instantiated on a desktop Chrome user
agent with a signed-in current user. -/
theorem apple_gate_spec_witness :
    isIosOrSafari chromeUserAgent = false ∧
    AuthCtx.signInWithAppleStart chromeUserAgent =
      AuthCtx.AppleCallStart.rejectedBeforePopup
        (some { code := "auth/unsupported-browser",
                message := AuthCtx.appleUnsupportedMessage })
        false AuthCtx.appleUnsupportedMessage ∧
    AuthCtx.linkWithAppleStart chromeUserAgent true =
      AuthCtx.AppleCallStart.rejectedBeforePopup none false
        AuthCtx.appleUnsupportedMessage := by
  have hgate : isIosOrSafari chromeUserAgent = false := by decide
  exact ⟨hgate, (apple_gate_spec chromeUserAgent true hgate).1,
         (apple_gate_spec chromeUserAgent true hgate).2⟩

/-- C4 counterexample: on a desktop Chrome user agent, linkWithApple rejects
before the popup, but neither the shared error state (never set) nor the
thrown plain Error carries the unsupported-browser code the claim requires. -/
theorem linkWithApple_code_counterexample :
    isIosOrSafari chromeUserAgent = false ∧
    AuthCtx.AppleCallStart.sharedErrorCode
        (AuthCtx.linkWithAppleStart chromeUserAgent true) ≠
      some "auth/unsupported-browser" ∧
    AuthCtx.AppleCallStart.thrownCarriesCode
        (AuthCtx.linkWithAppleStart chromeUserAgent true) = false ∧
    AuthCtx.linkWithAppleStart chromeUserAgent true ≠
      AuthCtx.AppleCallStart.popupIssued := by
  refine ⟨by decide, by decide, by decide, by decide⟩

/-- C7: for every context-consistent auth state (the exposed loading value
is the raw loading or-ed with not-initialized), the route guard renders the
placeholder whenever the exposed loading is true, redirects a settled state
with no user to /login preserving the requested location, redirects a
settled user failing a required email verification to /verify-email, and
otherwise renders its children. -/
theorem protectedRoute_policy (rawLoading isInitialized : Bool)
    (user : Option UserRec) (req : Bool) (location : String) :
    (AuthCtx.contextLoading rawLoading isInitialized = true →
      ProtectedRoute (AuthCtx.contextLoading rawLoading isInitialized)
        isInitialized user req location = RouteRender.loadingPlaceholder) ∧
    (AuthCtx.contextLoading rawLoading isInitialized = false → user = none →
      ProtectedRoute (AuthCtx.contextLoading rawLoading isInitialized)
        isInitialized user req location =
        RouteRender.redirect "/login" location) ∧
    (AuthCtx.contextLoading rawLoading isInitialized = false →
      ∀ u, user = some u → (req && !(u.emailVerified.getD false)) = true →
      ProtectedRoute (AuthCtx.contextLoading rawLoading isInitialized)
        isInitialized user req location =
        RouteRender.redirect "/verify-email" location) ∧
    (AuthCtx.contextLoading rawLoading isInitialized = false →
      ∀ u, user = some u → (req && !(u.emailVerified.getD false)) = false →
      ProtectedRoute (AuthCtx.contextLoading rawLoading isInitialized)
        isInitialized user req location = RouteRender.childrenContent) := by
  refine ⟨?_, ?_, ?_, ?_⟩
  · intro h
    simp [ProtectedRoute, h]
  · intro h hnone
    have hii : isInitialized = true := by
      cases isInitialized
      · simp [AuthCtx.contextLoading] at h
      · rfl
    subst hii hnone
    simp [AuthCtx.contextLoading] at h
    simp [ProtectedRoute, AuthCtx.contextLoading, h]
  · intro h u hu hreq
    have hii : isInitialized = true := by
      cases isInitialized
      · simp [AuthCtx.contextLoading] at h
      · rfl
    subst hii hu
    simp [AuthCtx.contextLoading] at h
    simp [ProtectedRoute, AuthCtx.contextLoading, h, hreq]
  · intro h u hu hreq
    have hii : isInitialized = true := by
      cases isInitialized
      · simp [AuthCtx.contextLoading] at h
      · rfl
    subst hii hu
    simp [AuthCtx.contextLoading] at h
    simp [ProtectedRoute, AuthCtx.contextLoading, h, hreq]

/-- C7 witness: the guard policy theorem instantiated on a settled state
with no user and a concrete requested location. -/
theorem protectedRoute_policy_witness :
    AuthCtx.contextLoading false true = false ∧
    ProtectedRoute (AuthCtx.contextLoading false true) true none false
      "/dashboard" = RouteRender.redirect "/login" "/dashboard" := by
  refine ⟨rfl, ?_⟩
  exact (protectedRoute_policy false true none false "/dashboard").2.1 rfl rfl

end Collabo
